import Mathlib

/-!
Verification of the echonexus core simulators.

This file gives a shallow embedding of the two core components of the
repository — the Monte Carlo outcome sampler (`monte_carlo_engine.py`) and
the VTC transaction-control evaluator (`vtc_engine.py`, with its rule and
category tables from `data_module.py`) — and proves or refutes the frozen
specification claims about them.

Modelling conventions:
- Python floats are modelled as rationals (`ℚ`); all numeric comparisons
  appearing in the claims are exact at the inputs involved, so the
  rational model agrees with IEEE-754 evaluation there.
- The ambient global NumPy random generator is modelled as an explicitly
  threaded stream of raw draws (`RngState`); `np.random.choice` consumes
  one raw draw and reduces it to an index into the candidate list.
- Python code that raises is modelled with `Option`: `np.max`/`np.min`
  raise `ValueError` on an empty list, modelled as `none`.
-/

namespace EchoNexus

/-- The ambient global NumPy generator, modelled as the stream of raw
natural-number draws it will produce.  Each call to the generator consumes
one element of the stream. -/
def RngState : Type := List Nat

/-- Consume one raw draw from the generator stream. -/
def rng_next (s : RngState) : Nat × RngState :=
  match s with
  | [] => (0, ([] : List Nat))
  | i :: rest => (i, rest)

/-- Model of `np.random.choice(vals)` for a uniform choice from a list:
one raw draw is consumed and reduced modulo the list length to an index.
(NumPy raises on an empty candidate list; no claim exercises that case, and
the model returns 0 there.) -/
def np_choice (vals : List ℚ) (s : RngState) : ℚ × RngState :=
  let p := rng_next s
  (vals.getD (p.1 % vals.length) 0, p.2)

/-- Model of Python `dict.get(key, default)` for the `variables` dict of
`run_monte_carlo` (string keys, list-of-float values). -/
def dict_get (d : List (String × List ℚ)) (k : String) (default : List ℚ) : List ℚ :=
  match d.find? (fun p => p.1 == k) with
  | some p => p.2
  | none => default

/-- The default `variables` dict installed by `run_monte_carlo` when the
caller passes `None` (monte_carlo_engine.py lines 31-36). -/
def default_variables : List (String × List ℚ) :=
  [ ("upskill_boost", [0, 0.15, 0.25]),
    ("expense_reduction", [0, 0.1, 0.2]),
    ("side_income", [0, 200, 500]) ]

/-- One sampled scenario dict appended to `outcomes`
(monte_carlo_engine.py lines 65-77). -/
structure Outcome where
  salary : ℚ
  expenses : ℚ
  monthly_savings : ℚ
  total_savings_12m : ℚ
  approval_prob : ℚ
  visa_fund_met : Bool
  stability_score : ℚ
  upskill_applied : Bool
  upskill_boost : ℚ
  expense_cut : ℚ
  side_income : ℚ

/-- `calculate_approval_probability` (monte_carlo_engine.py lines 100-117). -/
def calculate_approval_probability (salary expenses savings : ℚ) : ℚ :=
  let r := if expenses > 0 then salary / expenses else 2
  let base_prob := min (0.5 + (r - 1) * 0.25) 0.75
  let base_prob :=
    if savings ≥ 15000 then base_prob + 0.15
    else if savings ≥ 11208 then base_prob + 0.10
    else if savings ≥ 5000 then base_prob + 0.05
    else base_prob
  let base_prob := if r ≥ 1.5 then base_prob + 0.05 else base_prob
  min 0.98 (max 0.1 base_prob)

/-- `calculate_stability_score` (monte_carlo_engine.py lines 120-134). -/
def calculate_stability_score (salary expenses monthly_savings : ℚ) : ℚ :=
  let score : ℚ := 50
  let r := if expenses > 0 then salary / expenses else 2
  let score := score + min 20 ((r - 1) * 20)
  let savings_rate := if salary > 0 then monthly_savings / salary else 0
  let score := score + min 20 (savings_rate * 100)
  let score := if monthly_savings ≥ 500 then score + 10 else score
  min 100 (max 0 score)

/-- The simulation loop of `run_monte_carlo` (lines 40-77): each iteration
draws one value per lever from the global generator and derives a scenario. -/
def run_sims (base_salary base_expenses : ℚ) (vars : List (String × List ℚ))
    (months : ℚ) : Nat → RngState → List Outcome × RngState
  | 0, s => ([], s)
  | n + 1, s =>
    let d1 := np_choice (dict_get vars "upskill_boost" [0, 0.2]) s
    let d2 := np_choice (dict_get vars "expense_reduction" [0, 0.1]) d1.2
    let d3 := np_choice (dict_get vars "side_income" [0, 200]) d2.2
    let upskill := d1.1
    let expense_cut := d2.1
    let side_income := d3.1
    let effective_salary := base_salary * (1 + upskill) + side_income
    let effective_expenses := base_expenses * (1 - expense_cut)
    let monthly_savings := effective_salary - effective_expenses
    let total_savings := monthly_savings * months
    let o : Outcome :=
      { salary := effective_salary
        expenses := effective_expenses
        monthly_savings := monthly_savings
        total_savings_12m := total_savings
        approval_prob := calculate_approval_probability effective_salary effective_expenses total_savings
        visa_fund_met := decide (total_savings ≥ 11208)
        stability_score := calculate_stability_score effective_salary effective_expenses monthly_savings
        upskill_applied := decide (upskill > 0)
        upskill_boost := upskill
        expense_cut := expense_cut
        side_income := side_income }
    let rest := run_sims base_salary base_expenses vars months n d3.2
    (o :: rest.1, rest.2)

/-- `generate_path_name` (monte_carlo_engine.py lines 162-174). -/
def generate_path_name (o : Outcome) : String :=
  if o.upskill_boost ≥ 0.2 then "Career Accelerator Path"
  else if o.expense_cut ≥ 0.15 then "Frugal Pioneer Path"
  else if o.side_income ≥ 400 then "Hustle Builder Path"
  else if o.upskill_boost > 0 ∧ o.expense_cut > 0 then "Balanced Growth Path"
  else "Steady Progress Path"

/-- Model of the Python f-string format specifier `:.0f` (round to the
nearest integer and print it). -/
def fmt_f0 (x : ℚ) : String := toString (round x)

/-- `generate_path_description` (monte_carlo_engine.py lines 177-194). -/
def generate_path_description (o : Outcome) : String :=
  let parts : List String :=
    (if o.upskill_boost ≥ 0.15 then
       [ "+" ++ fmt_f0 (o.upskill_boost * 100) ++ "% salary through upskilling"] else []) ++
    (if o.expense_cut ≥ 0.1 then
       [fmt_f0 (o.expense_cut * 100) ++ "% expense reduction"] else []) ++
    (if o.side_income > 0 then
       [ "€" ++ fmt_f0 o.side_income ++ " side income"] else [])
  let parts := if parts = [] then ["Current trajectory maintained"] else parts
  String.intercalate " + " parts

/-- A selected distinct path: the scenario dict copied and extended with a
generated name and description (monte_carlo_engine.py lines 150-154). -/
structure MCPath where
  outcome : Outcome
  path_name : String
  path_description : String

/-- The inner distinctness check of `get_distinct_top_paths` (lines 143-148):
an outcome is distinct when its salary differs by at least 200 from every
already-selected path. -/
def is_distinct_from (o : Outcome) (existing : List MCPath) : Bool :=
  existing.all (fun p => decide (¬ |o.salary - p.outcome.salary| < 200))

/-- The selection loop of `get_distinct_top_paths` (lines 142-157): walk the
outcome list, append each distinct outcome as a path, and stop once `n`
paths are collected. -/
def get_distinct_top_paths_go (n : Nat) : List Outcome → List MCPath → List MCPath
  | [], acc => acc
  | o :: os, acc =>
    if is_distinct_from o acc then
      let acc' := acc ++
        [{ outcome := o
           path_name := generate_path_name o
           path_description := generate_path_description o }]
      if acc'.length ≥ n then acc' else get_distinct_top_paths_go n os acc'
    else
      get_distinct_top_paths_go n os acc

/-- `get_distinct_top_paths` (monte_carlo_engine.py lines 137-159). -/
def get_distinct_top_paths (outcomes : List Outcome) (n : Nat) : List MCPath :=
  get_distinct_top_paths_go n outcomes []

/-- Model of `np.max` on a list: raises `ValueError` on an empty list
(modelled as `none`), otherwise the maximum. -/
def np_max (l : List ℚ) : Option ℚ :=
  match l with
  | [] => none
  | x :: xs => some (xs.foldl max x)

/-- Model of `np.min` on a list: raises `ValueError` on an empty list
(modelled as `none`), otherwise the minimum. -/
def np_min (l : List ℚ) : Option ℚ :=
  match l with
  | [] => none
  | x :: xs => some (xs.foldl min x)

/-- Model of `np.mean` on a nonempty list (only reached on nonempty input
in `calculate_simulation_stats`, because `np.max` fails first on empty). -/
def np_mean (l : List ℚ) : ℚ := l.sum / l.length

/-- The statistics dict of `calculate_simulation_stats` (lines 206-217). -/
structure SimStats where
  avg_salary : ℚ
  max_salary : ℚ
  min_salary : ℚ
  avg_savings : ℚ
  max_savings : ℚ
  min_savings : ℚ
  avg_approval_prob : ℚ
  max_approval_prob : ℚ
  visa_fund_success_rate : ℚ
  total_simulations : Nat

/-- `calculate_simulation_stats` (monte_carlo_engine.py lines 197-217).
On an empty outcome list the Python code raises (`np.max([])` is a
`ValueError`, and `visa_met_count / len(outcomes)` divides by zero), so the
result is `Option`-valued and `none` models the raise. -/
def calculate_simulation_stats (outcomes : List Outcome) : Option SimStats := do
  let salaries := outcomes.map (fun o => o.salary)
  let savings := outcomes.map (fun o => o.total_savings_12m)
  let probs := outcomes.map (fun o => o.approval_prob)
  let visa_met_count := (outcomes.filter (fun o => o.visa_fund_met)).length
  let max_salary ← np_max salaries
  let min_salary ← np_min salaries
  let max_savings ← np_max savings
  let min_savings ← np_min savings
  let max_prob ← np_max probs
  if outcomes.length = 0 then none
  else
    some
      { avg_salary := np_mean salaries
        max_salary := max_salary
        min_salary := min_salary
        avg_savings := np_mean savings
        max_savings := max_savings
        min_savings := min_savings
        avg_approval_prob := np_mean probs
        max_approval_prob := max_prob
        visa_fund_success_rate := ((visa_met_count : ℚ) / (outcomes.length : ℚ)) * 100
        total_simulations := outcomes.length }

/-- The `base_scenario` dict of the bundle (lines 89-96). -/
structure BaseScenario where
  salary : ℚ
  expenses : ℚ
  monthly_savings : ℚ
  approval_prob : ℚ

/-- The dict returned by `run_monte_carlo` (lines 85-97). -/
structure Bundle where
  top_paths : List MCPath
  all_outcomes : List Outcome
  statistics : SimStats
  base_scenario : BaseScenario

/-- The sort relation of `sorted(outcomes, key=approval_prob, reverse=True)`:
descending by approval probability; the stable sort keeps sampling order on
ties. -/
def by_approval_desc (a b : Outcome) : Prop := b.approval_prob ≤ a.approval_prob

instance : DecidableRel by_approval_desc := fun a b =>
  inferInstanceAs (Decidable (b.approval_prob ≤ a.approval_prob))

/-- `run_monte_carlo` (monte_carlo_engine.py lines 10-97).  The function
takes NO seed argument in the source; its draws come from the ambient
global generator, modelled as the explicitly threaded `rng` stream, whose
final state is returned alongside the result.  A raise inside
`calculate_simulation_stats` aborts the call (`none`). -/
def run_monte_carlo (base_salary base_expenses : ℚ)
    (vars0 : Option (List (String × List ℚ))) (num_sims : Int) (months : ℚ)
    (rng : RngState) : Option Bundle × RngState :=
  let vars := vars0.getD default_variables
  let sims := run_sims base_salary base_expenses vars months num_sims.toNat rng
  let outcomes := sims.1
  let sorted_outcomes := outcomes.insertionSort by_approval_desc
  let top_paths := get_distinct_top_paths sorted_outcomes 3
  match calculate_simulation_stats outcomes with
  | none => (none, sims.2)
  | some stats =>
    ( some
        { top_paths := top_paths
          all_outcomes := outcomes
          statistics := stats
          base_scenario :=
            { salary := base_salary
              expenses := base_expenses
              monthly_savings := base_salary - base_expenses
              approval_prob := calculate_approval_probability base_salary base_expenses
                ((base_salary - base_expenses) * months) } },
      sims.2)

/-- An entry of the `TRANSACTION_CATEGORIES` table (data_module.py
lines 732-745): risk level and display icon (category display name unused
by the evaluator). -/
structure CatInfo where
  risk_level : String
  icon : String

/-- The `TRANSACTION_CATEGORIES` table (data_module.py lines 732-745). -/
def TRANSACTION_CATEGORIES : List (String × CatInfo) :=
  [ ("rent", { risk_level := "low", icon := "🏠" }),
    ("groceries", { risk_level := "low", icon := "🛒" }),
    ("utilities", { risk_level := "low", icon := "💡" }),
    ("transport", { risk_level := "low", icon := "🚌" }),
    ("dining", { risk_level := "medium", icon := "🍽️" }),
    ("entertainment", { risk_level := "medium", icon := "🎬" }),
    ("shopping", { risk_level := "medium", icon := "🛍️" }),
    ("electronics", { risk_level := "high", icon := "💻" }),
    ("travel", { risk_level := "high", icon := "✈️" }),
    ("atm", { risk_level := "low", icon := "🏧" }),
    ("healthcare", { risk_level := "low", icon := "🏥" }),
    ("education", { risk_level := "low", icon := "📚" }) ]

/-- `TRANSACTION_CATEGORIES.get(category, {"risk_level": "medium",
"icon": "💳"})` (vtc_engine.py line 41). -/
def transaction_categories_get (category : String) : CatInfo :=
  match TRANSACTION_CATEGORIES.find? (fun p => p.1 == category) with
  | some p => p.2
  | none => { risk_level := "medium", icon := "💳" }

/-- One profile of the `VTC_RULES` table (data_module.py lines 702-730);
the display-only `description` string is omitted. -/
structure VtcRules where
  max_international : ℚ
  max_single_transaction : ℚ
  daily_limit : ℚ
  block_high_risk_merchants : Bool
  allow_atm : Bool
  max_atm_withdrawal : ℚ

/-- The `standard` profile of `VTC_RULES` (data_module.py lines 703-711). -/
def VTC_RULES_standard : VtcRules :=
  { max_international := 500
    max_single_transaction := 1000
    daily_limit := 2500
    block_high_risk_merchants := true
    allow_atm := true
    max_atm_withdrawal := 500 }

/-- The `conservative` profile of `VTC_RULES` (data_module.py lines 712-720). -/
def VTC_RULES_conservative : VtcRules :=
  { max_international := 200
    max_single_transaction := 500
    daily_limit := 1000
    block_high_risk_merchants := true
    allow_atm := true
    max_atm_withdrawal := 200 }

/-- The `flexible` profile of `VTC_RULES` (data_module.py lines 721-729). -/
def VTC_RULES_flexible : VtcRules :=
  { max_international := 2000
    max_single_transaction := 3000
    daily_limit := 5000
    block_high_risk_merchants := false
    allow_atm := true
    max_atm_withdrawal := 1000 }

/-- `get_vtc_rules` (data_module.py lines 798-800): dictionary lookup with
fallback to the `standard` profile for unknown names. -/
def get_vtc_rules (profile : String) : VtcRules :=
  if profile = "conservative" then VTC_RULES_conservative
  else if profile = "flexible" then VTC_RULES_flexible
  else VTC_RULES_standard

/-- One input transaction; the fields carry the `tx.get(...)` defaults of
vtc_engine.py lines 31-34 already applied (amount 0, location "domestic",
category "shopping", desc "Unknown Transaction" when missing). -/
structure Transaction where
  desc : String
  amount : ℚ
  category : String
  location : String

/-- One entry of the simulated feed (vtc_engine.py lines 82-94). -/
structure SimEntry where
  tx : String
  amount : ℚ
  category : String
  location : String
  status : String
  reason : String
  vtc_action : Option String
  savings_impact : ℚ
  icon : String
  risk_level : String
  running_daily_total : ℚ
deriving DecidableEq

/-- The verdict quadruple (status, reason, vtc_action, savings_impact)
computed by the rule chain of `simulate_vtc` (vtc_engine.py lines 36-77). -/
structure VtcDecision where
  status : String
  reason : String
  vtc_action : Option String
  savings_impact : ℚ

/-- The layered rule chain of `simulate_vtc` (vtc_engine.py lines 43-77),
evaluated with short-circuit at the first matching rule. -/
def vtc_decision (rules : VtcRules) (running_daily_total : ℚ) (txn : Transaction) :
    VtcDecision :=
  let amount := txn.amount
  let cat_info := transaction_categories_get txn.category
  if txn.location = "international" ∧ amount > rules.max_international then
    { status := "Declined"
      reason := "Exceeds international limit (€" ++ toString rules.max_international ++ ")"
      vtc_action := some "VTC blocked this international transaction to protect your budget"
      savings_impact := amount }
  else if amount > rules.max_single_transaction then
    { status := "Declined"
      reason := "Exceeds single transaction limit (€" ++ toString rules.max_single_transaction ++ ")"
      vtc_action := some "VTC blocked this large purchase—consider splitting or pre-approving"
      savings_impact := amount }
  else if running_daily_total + amount > rules.daily_limit then
    { status := "Declined"
      reason := "Would exceed daily limit (€" ++ toString rules.daily_limit ++ ")"
      vtc_action := some "Daily spending limit reached—transaction blocked for budget safety"
      savings_impact := amount }
  else if txn.category = "atm" then
    if ¬ rules.allow_atm then
      { status := "Declined"
        reason := "ATM withdrawals blocked by VTC settings"
        vtc_action := some "ATM access disabled in your VTC profile"
        savings_impact := amount }
    else if amount > rules.max_atm_withdrawal then
      { status := "Declined"
        reason := "Exceeds ATM withdrawal limit (€" ++ toString rules.max_atm_withdrawal ++ ")"
        vtc_action := some "ATM withdrawal limit exceeded"
        savings_impact := amount }
    else
      { status := "Approved", reason := "Transaction approved"
        vtc_action := none, savings_impact := 0 }
  else if cat_info.risk_level = "high" ∧ rules.block_high_risk_merchants then
    if amount > rules.max_international * 0.8 then
      { status := "Flagged"
        reason := "High-value transaction in high-risk category"
        vtc_action := some "Transaction flagged for review—consider using a different payment method"
        savings_impact := 0 }
    else
      { status := "Approved", reason := "Transaction approved"
        vtc_action := none, savings_impact := 0 }
  else
    { status := "Approved", reason := "Transaction approved"
      vtc_action := none, savings_impact := 0 }

/-- One iteration of the `simulate_vtc` loop (vtc_engine.py lines 30-94):
evaluate the rule chain, advance the running daily total only on approval,
and emit the feed entry. -/
def vtc_step (rules : VtcRules) (running_daily_total : ℚ) (txn : Transaction) :
    SimEntry × ℚ :=
  let cat_info := transaction_categories_get txn.category
  let d := vtc_decision rules running_daily_total txn
  let new_total :=
    if d.status = "Approved" then running_daily_total + txn.amount
    else running_daily_total
  ( { tx := txn.desc
      amount := txn.amount
      category := txn.category
      location := txn.location
      status := d.status
      reason := d.reason
      vtc_action := d.vtc_action
      savings_impact := d.savings_impact
      icon := cat_info.icon
      risk_level := cat_info.risk_level
      running_daily_total := new_total },
    new_total )

/-- The transaction loop of `simulate_vtc`, threading the running daily
total through the sequence. -/
def simulate_vtc_go (rules : VtcRules) (running_daily_total : ℚ) :
    List Transaction → List SimEntry
  | [] => []
  | t :: ts =>
    let step := vtc_step rules running_daily_total t
    step.1 :: simulate_vtc_go rules step.2 ts

/-- `simulate_vtc` (vtc_engine.py lines 10-96). -/
def simulate_vtc (transactions : List Transaction) (rules_profile : String)
    (daily_spent : ℚ) : List SimEntry :=
  simulate_vtc_go (get_vtc_rules rules_profile) daily_spent transactions

/-- One value of the `category_breakdown` dict (vtc_engine.py line 117). -/
structure CatAmounts where
  approved : ℚ
  declined : ℚ
  total : ℚ

/-- One iteration of the `category_breakdown` loop (vtc_engine.py
lines 114-122), with the dict modelled as a partial map from category
names. -/
def breakdown_step (acc : String → Option CatAmounts) (e : SimEntry) :
    String → Option CatAmounts :=
  let cur :=
    match acc e.category with
    | some c => c
    | none => { approved := 0, declined := 0, total := 0 }
  let cur := { cur with total := cur.total + e.amount }
  let cur :=
    if e.status = "Approved" then { cur with approved := cur.approved + e.amount }
    else { cur with declined := cur.declined + e.amount }
  fun c => if c = e.category then some cur else acc c

/-- The summary dict of `calculate_vtc_summary` (vtc_engine.py
lines 124-134). -/
structure VtcSummary where
  total_transactions : Nat
  approved_count : Nat
  declined_count : Nat
  flagged_count : Nat
  approval_rate : ℚ
  total_approved : ℚ
  total_declined : ℚ
  potential_savings : ℚ
  category_breakdown : String → Option CatAmounts

/-- `calculate_vtc_summary` (vtc_engine.py lines 99-134). -/
def calculate_vtc_summary (sim_feed : List SimEntry) : VtcSummary :=
  let total_transactions := sim_feed.length
  let approved := (sim_feed.filter (fun t => t.status = "Approved")).length
  let declined := (sim_feed.filter (fun t => t.status = "Declined")).length
  let flagged := (sim_feed.filter (fun t => t.status = "Flagged")).length
  let total_approved_amount :=
    ((sim_feed.filter (fun t => t.status = "Approved")).map (fun t => t.amount)).sum
  let total_declined_amount :=
    ((sim_feed.filter (fun t => t.status = "Declined")).map (fun t => t.amount)).sum
  let total_savings := (sim_feed.map (fun t => t.savings_impact)).sum
  let approval_rate :=
    if total_transactions > 0 then ((approved : ℚ) / (total_transactions : ℚ)) * 100
    else 0
  { total_transactions := total_transactions
    approved_count := approved
    declined_count := declined
    flagged_count := flagged
    approval_rate := approval_rate
    total_approved := total_approved_amount
    total_declined := total_declined_amount
    potential_savings := total_savings
    category_breakdown := sim_feed.foldl breakdown_step (fun _ => none) }

/-- Statement vocabulary: the summed amounts of the entries of `feed` in
category `cat` whose status is not `Approved` (these are the amounts the
breakdown loop adds to the category's `declined` bucket). -/
def non_approved_amount_in_category (feed : List SimEntry) (cat : String) : ℚ :=
  ((feed.filter (fun e => e.category = cat ∧ e.status ≠ "Approved")).map
    (fun e => e.amount)).sum

/-- Statement vocabulary: the per-transaction running-total discipline of
the claim — each feed entry's recorded running total extends the previous
one by the amount exactly on approvals, and is unchanged otherwise. -/
def totals_trace (start : ℚ) : List SimEntry → Prop
  | [] => True
  | e :: es =>
    (if e.status = "Approved" then e.running_daily_total = start + e.amount
     else e.running_daily_total = start) ∧
    totals_trace e.running_daily_total es

/-- A default bundle used only to project values out of an `Option Bundle`
in closed witness statements. -/
def empty_bundle : Bundle :=
  { top_paths := []
    all_outcomes := []
    statistics :=
      { avg_salary := 0, max_salary := 0, min_salary := 0, avg_savings := 0
        max_savings := 0, min_savings := 0, avg_approval_prob := 0
        max_approval_prob := 0, visa_fund_success_rate := 0, total_simulations := 0 }
    base_scenario := { salary := 0, expenses := 0, monthly_savings := 0, approval_prob := 0 } }

/-- Statement vocabulary for the distinct-path claim: two paths are
salary-separated when their effective salaries differ by at least 200. -/
def salary_separated (a b : MCPath) : Prop :=
  200 ≤ |a.outcome.salary - b.outcome.salary|

lemma simulate_vtc_go_length (rules : VtcRules) :
    ∀ (txs : List Transaction) (r : ℚ),
      (simulate_vtc_go rules r txs).length = txs.length := by
  intro txs
  induction txs with
  | nil => intro r; rfl
  | cons t ts ih =>
    intro r
    simp only [simulate_vtc_go, List.length_cons, ih]

lemma simulate_vtc_length (txs : List Transaction) (profile : String) (start : ℚ) :
    (simulate_vtc txs profile start).length = txs.length :=
  simulate_vtc_go_length _ txs start

lemma approval_rate_eq (feed : List SimEntry) :
    (calculate_vtc_summary feed).approval_rate =
      (if feed.length > 0 then
        (((feed.filter (fun t => t.status = "Approved")).length : ℚ) / (feed.length : ℚ)) * 100
       else 0) := rfl

/-- C1 counterexample: `run_monte_carlo` takes no seed parameter — the
caller can only seed the ambient global generator once, and the generator
state advances across calls.  Two successive invocations with identical
arguments after one seeding (the second starting from the generator state
the first call left behind) produce different scenario lists. -/
theorem run_monte_carlo_shared_state_counterexample :
    ((run_monte_carlo 2000 1500 none 1 12 ([0, 0, 0, 1, 1, 1] : RngState)).1.map
        (fun b => b.all_outcomes)) ≠
      ((run_monte_carlo 2000 1500 none 1 12
          (run_monte_carlo 2000 1500 none 1 12 ([0, 0, 0, 1, 1, 1] : RngState)).2).1.map
        (fun b => b.all_outcomes)) := by
  intro h
  have h' := congrArg (Option.map (fun l => l.map (fun o : Outcome => o.salary))) h
  simp [run_monte_carlo, run_sims, np_choice, rng_next, dict_get, default_variables,
    calculate_simulation_stats, np_max, np_min, List.find?, List.getD] at h'
  norm_num at h'

/-- C1 (amended): the sampler is deterministic in the generator state — two
invocations of `run_monte_carlo` with identical arguments and identical
ambient generator states (e.g. the caller re-seeds the global generator
before each call) produce identical bundles, scenario lists included. -/
theorem run_monte_carlo_equal_state_deterministic (bs be : ℚ)
    (vars0 : Option (List (String × List ℚ))) (n : Int) (months : ℚ)
    (s1 s2 : RngState) (h : s1 = s2) :
    run_monte_carlo bs be vars0 n months s1 = run_monte_carlo bs be vars0 n months s2 := by
  rw [h]

/-- Witness for the amended C1 at a concrete input. -/
theorem run_monte_carlo_equal_state_deterministic_witness :
    run_monte_carlo 2000 1500 none 100 12 ([0, 1, 2] : RngState) =
      run_monte_carlo 2000 1500 none 100 12 ([0, 1, 2] : RngState) :=
  run_monte_carlo_equal_state_deterministic 2000 1500 none 100 12 [0, 1, 2] [0, 1, 2] rfl

/-- The caller-supplied lever candidate sets of the spec's worked example:
each lever has a single candidate, so the draw is forced. -/
def career_vars : List (String × List ℚ) :=
  [("upskill_boost", [0.25]), ("expense_reduction", [0.2]), ("side_income", [500])]

/-- C9 counterexample: with `base_salary = 4000`, `base_expenses = 2500`
and the forced draw `boost = 0.25, reduction = 0.2, side_income = 500`,
the generated path name is NOT the claimed string "Career Accelerator":
`generate_path_name` returns "Career Accelerator Path". -/
theorem career_accelerator_name_counterexample :
    ((run_monte_carlo 4000 2500 (some career_vars) 1 12 ([] : RngState)).1.map
        (fun b => b.top_paths.map (fun p => p.path_name))) ≠
      some ["Career Accelerator"] := by
  have hval : ((run_monte_carlo 4000 2500 (some career_vars) 1 12 ([] : RngState)).1.map
      (fun b => b.top_paths.map (fun p => p.path_name))) =
      some ["Career Accelerator Path"] := by
    simp [run_monte_carlo, run_sims, np_choice, rng_next, dict_get, career_vars,
      calculate_simulation_stats, np_max, np_min, List.find?, List.getD,
      List.insertionSort, List.orderedInsert, get_distinct_top_paths,
      get_distinct_top_paths_go, is_distinct_from, generate_path_name]
    norm_num
  rw [hval]
  simp

/-- C9 (amended): the worked example derives `effective_salary = 5500`,
`effective_expenses = 2000`, `monthly_savings = 3500`,
`total_savings_12m = 42000`, `visa_fund_met = true`, and the promoted
path's name is "Career Accelerator Path" (boost ≥ 0.2). -/
theorem career_accelerator_scenario :
    ((run_monte_carlo 4000 2500 (some career_vars) 1 12 ([] : RngState)).1.map
        (fun b => b.all_outcomes.map (fun o =>
          (o.salary, o.expenses, o.monthly_savings, o.total_savings_12m, o.visa_fund_met)))) =
      some [((5500 : ℚ), (2000 : ℚ), (3500 : ℚ), (42000 : ℚ), true)] ∧
    ((run_monte_carlo 4000 2500 (some career_vars) 1 12 ([] : RngState)).1.map
        (fun b => b.top_paths.map (fun p => p.path_name))) =
      some ["Career Accelerator Path"] := by
  constructor <;>
    simp [run_monte_carlo, run_sims, np_choice, rng_next, dict_get, career_vars,
      calculate_simulation_stats, np_max, np_min, List.find?, List.getD,
      List.insertionSort, List.orderedInsert, get_distinct_top_paths,
      get_distinct_top_paths_go, is_distinct_from, generate_path_name, Prod.ext_iff] <;>
    norm_num

lemma is_distinct_from_spec (o : Outcome) (acc : List MCPath)
    (h : is_distinct_from o acc = true) :
    ∀ p ∈ acc, 200 ≤ |o.salary - p.outcome.salary| := by
  intro p hp
  have := (List.all_eq_true.mp h) p hp
  simpa [not_lt] using this

lemma get_distinct_go_pairwise (n : Nat) :
    ∀ (os : List Outcome) (acc : List MCPath), acc.Pairwise salary_separated →
      (get_distinct_top_paths_go n os acc).Pairwise salary_separated := by
  intro os
  induction os with
  | nil => exact fun acc h => h
  | cons o os ih =>
    intro acc h
    simp only [get_distinct_top_paths_go]
    by_cases hd : is_distinct_from o acc = true
    · rw [if_pos hd]
      have hp : (acc ++
          [({ outcome := o
              path_name := generate_path_name o
              path_description := generate_path_description o } : MCPath)]).Pairwise salary_separated := by
        rw [List.pairwise_append]
        refine ⟨h, List.pairwise_singleton _ _, ?_⟩
        intro a ha b hb
        rw [List.mem_singleton] at hb
        subst hb
        show 200 ≤ |a.outcome.salary - o.salary|
        rw [abs_sub_comm]
        exact is_distinct_from_spec o acc hd a ha
      by_cases hlen : (acc ++
          [({ outcome := o
              path_name := generate_path_name o
              path_description := generate_path_description o } : MCPath)]).length ≥ n
      · rw [if_pos hlen]
        exact hp
      · rw [if_neg hlen]
        exact ih _ hp
    · rw [if_neg hd]
      exact ih _ h

lemma get_distinct_go_length (n : Nat) :
    ∀ (os : List Outcome) (acc : List MCPath), acc.length < n →
      (get_distinct_top_paths_go n os acc).length ≤ n := by
  intro os
  induction os with
  | nil => exact fun acc h => Nat.le_of_lt h
  | cons o os ih =>
    intro acc h
    simp only [get_distinct_top_paths_go]
    by_cases hd : is_distinct_from o acc = true
    · rw [if_pos hd]
      by_cases hlen : (acc ++
          [({ outcome := o
              path_name := generate_path_name o
              path_description := generate_path_description o } : MCPath)]).length ≥ n
      · rw [if_pos hlen]
        simp only [List.length_append, List.length_singleton]
        omega
      · rw [if_neg hlen]
        refine ih _ ?_
        simp only [List.length_append, List.length_singleton] at hlen ⊢
        omega
    · rw [if_neg hd]
      exact ih _ h

/-- C4: whenever `run_monte_carlo` returns a bundle, any two paths in its
top-paths list have effective salaries at least 200 apart, the list holds
at most 3 paths, and it is exactly the greedy selection from the scenario
list stably sorted descending by approval probability. -/
theorem top_paths_distinct_salary (bs be : ℚ) (vars0 : Option (List (String × List ℚ)))
    (n : Int) (months : ℚ) (rng : RngState) (bundle : Bundle)
    (h : (run_monte_carlo bs be vars0 n months rng).1 = some bundle) :
    bundle.top_paths.Pairwise salary_separated ∧
    bundle.top_paths.length ≤ 3 ∧
    bundle.top_paths =
      get_distinct_top_paths (bundle.all_outcomes.insertionSort by_approval_desc) 3 := by
  simp only [run_monte_carlo] at h
  split at h
  · simp at h
  · simp only [Option.some.injEq] at h
    subst h
    exact ⟨get_distinct_go_pairwise 3 _ [] List.Pairwise.nil,
      get_distinct_go_length 3 _ [] (by decide), rfl⟩

/-- Witness for C4: a concrete seeded one-sample run. -/
theorem top_paths_distinct_salary_witness :
    (((run_monte_carlo 2000 1500 none 1 12 ([0, 0, 0] : RngState)).1.getD
        empty_bundle).top_paths).Pairwise salary_separated ∧
    (((run_monte_carlo 2000 1500 none 1 12 ([0, 0, 0] : RngState)).1.getD
        empty_bundle).top_paths).length ≤ 3 ∧
    ((run_monte_carlo 2000 1500 none 1 12 ([0, 0, 0] : RngState)).1.getD
        empty_bundle).top_paths =
      get_distinct_top_paths
        ((((run_monte_carlo 2000 1500 none 1 12 ([0, 0, 0] : RngState)).1.getD
          empty_bundle).all_outcomes).insertionSort by_approval_desc) 3 :=
  top_paths_distinct_salary 2000 1500 none 1 12 [0, 0, 0]
    ((run_monte_carlo 2000 1500 none 1 12 ([0, 0, 0] : RngState)).1.getD empty_bundle) rfl

lemma breakdown_declined (feed : List SimEntry) :
    ∀ (acc : String → Option CatAmounts) (cat : String),
      ((feed.foldl breakdown_step acc) cat).map (fun c => c.declined) =
        (match (acc cat).map (fun c => c.declined) with
         | some d => some (d + non_approved_amount_in_category feed cat)
         | none =>
           if feed.filter (fun e => e.category = cat) = [] then none
           else some (non_approved_amount_in_category feed cat)) := by
  induction feed with
  | nil =>
    intro acc cat
    cases hacc : acc cat <;>
      simp [hacc, non_approved_amount_in_category]
  | cons e es ih =>
    intro acc cat
    rw [List.foldl_cons, ih]
    by_cases hc : cat = e.category
    · rw [hc]
      simp only [breakdown_step]
      cases hacc : acc e.category <;> by_cases hst : e.status = "Approved" <;>
        simp [hacc, hst, non_approved_amount_in_category, List.filter_cons, add_assoc,
          add_comm, add_left_comm]
    · have hne : ¬ e.category = cat := fun h => hc h.symm
      have hstep : (breakdown_step acc e) cat = acc cat := by
        simp [breakdown_step, if_neg hc]
      rw [hstep]
      have hfilter : (e :: es).filter (fun x => x.category = cat) =
          es.filter (fun x => x.category = cat) := by
        simp [List.filter_cons, hne]
      have hsum : non_approved_amount_in_category (e :: es) cat =
          non_approved_amount_in_category es cat := by
        simp [non_approved_amount_in_category, List.filter_cons, hne]
      rw [hfilter, hsum]

/-- C10: in the per-category breakdown the `declined` bucket of a category
accumulates the amount of every non-Approved entry — Flagged included —
while the summary's `total_declined` sums only entries with status
`Declined` and `potential_savings` sums the recorded savings impacts (0 for
flagged entries). -/
theorem flagged_in_declined_bucket (feed : List SimEntry) (cat : String) :
    (((calculate_vtc_summary feed).category_breakdown cat).map (fun c => c.declined)) =
      (if feed.filter (fun e => e.category = cat) = [] then none
       else some (non_approved_amount_in_category feed cat)) ∧
    (calculate_vtc_summary feed).total_declined =
      ((feed.filter (fun e => e.status = "Declined")).map (fun e => e.amount)).sum ∧
    (calculate_vtc_summary feed).potential_savings =
      (feed.map (fun e => e.savings_impact)).sum := by
  refine ⟨?_, rfl, rfl⟩
  have h := breakdown_declined feed (fun _ => none) cat
  show ((feed.foldl breakdown_step (fun _ => none)) cat).map (fun c => c.declined) =
    (if feed.filter (fun e => e.category = cat) = [] then none
     else some (non_approved_amount_in_category feed cat))
  rw [h]
  rfl

/-- C2: the spec requires `num_samples = 0` (or negative) to return a
well-formed bundle with zeroed statistics, but the code raises:
`calculate_simulation_stats` applies `np.max` to the empty salary list
(`ValueError`) and divides the visa-fund count by `len(outcomes) = 0`, so
`run_monte_carlo` fails instead of returning a bundle.  The model returns
`none` exactly where the Python code raises. -/
theorem run_monte_carlo_zero_samples_errors :
    (run_monte_carlo 2000 1500 none 0 12 []).1 = none ∧
    (run_monte_carlo 2000 1500 none (-5) 12 []).1 = none ∧
    calculate_simulation_stats [] = none :=
  ⟨rfl, rfl, rfl⟩

/-- C5: for all numeric inputs (including zero salary or expenses), the
approval probability computed by `calculate_approval_probability` lies in
[0.10, 0.98] and the stability score computed by
`calculate_stability_score` lies in [0, 100]. -/
theorem probability_and_stability_clamped (salary expenses savings msav : ℚ) :
    0.10 ≤ calculate_approval_probability salary expenses savings ∧
    calculate_approval_probability salary expenses savings ≤ 0.98 ∧
    0 ≤ calculate_stability_score salary expenses msav ∧
    calculate_stability_score salary expenses msav ≤ 100 := by
  unfold calculate_approval_probability calculate_stability_score
  refine ⟨le_min (by norm_num) (le_max_of_le_left (by norm_num)), min_le_left _ _,
    le_min (by norm_num) (le_max_of_le_left (by norm_num)), min_le_left _ _⟩

lemma vtc_decision_flagged (rules : VtcRules) (r : ℚ) (t : Transaction)
    (h1 : ¬(t.location = "international" ∧ t.amount > rules.max_international))
    (h2 : ¬ t.amount > rules.max_single_transaction)
    (h3 : ¬ r + t.amount > rules.daily_limit)
    (h4 : ¬ t.category = "atm")
    (h5 : (transaction_categories_get t.category).risk_level = "high")
    (h6 : rules.block_high_risk_merchants = true)
    (h7 : t.amount > rules.max_international * 0.8) :
    vtc_decision rules r t =
      { status := "Flagged"
        reason := "High-value transaction in high-risk category"
        vtc_action := some "Transaction flagged for review—consider using a different payment method"
        savings_impact := 0 } := by
  unfold vtc_decision
  rw [if_neg h1, if_neg h2, if_neg h3, if_neg h4, if_pos ⟨h5, h6⟩, if_pos h7]

/-- C3: a transaction that takes the Flagged branch (high-risk category,
profile blocks high-risk merchants, amount above 0.8 × max_international,
no earlier rule fired) is recorded with savings_impact 0, and the running
daily total is unchanged: the rest of the sequence is evaluated from the
same total. -/
theorem vtc_flagged_frame (rules : VtcRules) (r : ℚ) (t : Transaction)
    (ts : List Transaction)
    (h1 : ¬(t.location = "international" ∧ t.amount > rules.max_international))
    (h2 : ¬ t.amount > rules.max_single_transaction)
    (h3 : ¬ r + t.amount > rules.daily_limit)
    (h4 : ¬ t.category = "atm")
    (h5 : (transaction_categories_get t.category).risk_level = "high")
    (h6 : rules.block_high_risk_merchants = true)
    (h7 : t.amount > rules.max_international * 0.8) :
    (vtc_step rules r t).1.status = "Flagged" ∧
    (vtc_step rules r t).1.savings_impact = 0 ∧
    (vtc_step rules r t).2 = r ∧
    simulate_vtc_go rules r (t :: ts) = (vtc_step rules r t).1 :: simulate_vtc_go rules r ts := by
  have hd := vtc_decision_flagged rules r t h1 h2 h3 h4 h5 h6 h7
  have hs1 : (vtc_step rules r t).1.status = "Flagged" := by simp [vtc_step, hd]
  have hs2 : (vtc_step rules r t).1.savings_impact = 0 := by simp [vtc_step, hd]
  have hs3 : (vtc_step rules r t).2 = r := by simp [vtc_step, hd]
  refine ⟨hs1, hs2, hs3, ?_⟩
  show (vtc_step rules r t).1 :: simulate_vtc_go rules (vtc_step rules r t).2 ts =
    (vtc_step rules r t).1 :: simulate_vtc_go rules r ts
  rw [hs3]

/-- Witness for C3: the spec's own example — standard profile, amount 450
in the high-risk `travel` category, domestic, daily total 0, where
450 > 0.8 × 500 = 400. -/
theorem vtc_flagged_frame_witness :
    (vtc_step VTC_RULES_standard 0 ⟨"Weekend Trip", 450, "travel", "domestic"⟩).1.status = "Flagged" ∧
    (vtc_step VTC_RULES_standard 0 ⟨"Weekend Trip", 450, "travel", "domestic"⟩).1.savings_impact = 0 ∧
    (vtc_step VTC_RULES_standard 0 ⟨"Weekend Trip", 450, "travel", "domestic"⟩).2 = 0 ∧
    simulate_vtc_go VTC_RULES_standard 0
        [⟨"Weekend Trip", 450, "travel", "domestic"⟩, ⟨"Grocery Store", 85, "groceries", "domestic"⟩] =
      (vtc_step VTC_RULES_standard 0 ⟨"Weekend Trip", 450, "travel", "domestic"⟩).1 ::
        simulate_vtc_go VTC_RULES_standard 0 [⟨"Grocery Store", 85, "groceries", "domestic"⟩] :=
  vtc_flagged_frame VTC_RULES_standard 0 ⟨"Weekend Trip", 450, "travel", "domestic"⟩
    [⟨"Grocery Store", 85, "groceries", "domestic"⟩]
    (by simp) (by norm_num [VTC_RULES_standard]) (by norm_num [VTC_RULES_standard])
    (by decide) rfl rfl (by norm_num [VTC_RULES_standard])

lemma simulate_vtc_go_trace (rules : VtcRules) :
    ∀ (txs : List Transaction) (r : ℚ), (∀ t ∈ txs, 0 ≤ t.amount) →
      totals_trace r (simulate_vtc_go rules r txs) ∧
      List.Chain (· ≤ ·) r
        ((simulate_vtc_go rules r txs).map (fun e => e.running_daily_total)) := by
  intro txs
  induction txs with
  | nil => exact fun r _ => ⟨trivial, List.Chain.nil⟩
  | cons t ts ih =>
    intro r h
    have ht : 0 ≤ t.amount := h t (by simp)
    have hts : ∀ x ∈ ts, 0 ≤ x.amount := fun x hx => h x (by simp [hx])
    have h2 : (vtc_step rules r t).2 =
        (if (vtc_step rules r t).1.status = "Approved" then r + t.amount else r) := rfl
    have hrd : (vtc_step rules r t).1.running_daily_total = (vtc_step rules r t).2 := rfl
    have ham : (vtc_step rules r t).1.amount = t.amount := rfl
    have hle : r ≤ (vtc_step rules r t).2 := by
      rw [h2]
      split
      · linarith
      · exact le_refl r
    obtain ⟨ihtr, ihch⟩ := ih ((vtc_step rules r t).2) hts
    constructor
    · show totals_trace r
        ((vtc_step rules r t).1 :: simulate_vtc_go rules (vtc_step rules r t).2 ts)
      refine ⟨?_, ?_⟩
      · by_cases hap : (vtc_step rules r t).1.status = "Approved"
        · rw [if_pos hap, hrd, h2, if_pos hap, ham]
        · rw [if_neg hap, hrd, h2, if_neg hap]
      · rw [hrd]
        exact ihtr
    · show List.Chain (· ≤ ·) r
        ((vtc_step rules r t).1.running_daily_total ::
          (simulate_vtc_go rules (vtc_step rules r t).2 ts).map (fun e => e.running_daily_total))
      rw [hrd]
      exact List.Chain.cons hle ihch

/-- C6: for any transaction sequence with non-negative amounts, the running
daily total of `simulate_vtc` is non-decreasing across the sequence, and
each step changes it exactly by the transaction amount on an Approved
verdict and leaves it unchanged otherwise. -/
theorem running_total_monotone (txs : List Transaction) (profile : String) (start : ℚ)
    (h : ∀ t ∈ txs, 0 ≤ t.amount) :
    totals_trace start (simulate_vtc txs profile start) ∧
    List.Chain (· ≤ ·) start
      ((simulate_vtc txs profile start).map (fun e => e.running_daily_total)) :=
  simulate_vtc_go_trace (get_vtc_rules profile) txs start h

/-- Witness for C6: a concrete batch (one approved, one flagged, one
declined transaction) with non-negative amounts. -/
theorem running_total_monotone_witness :
    totals_trace 0 (simulate_vtc
      [⟨"Grocery Store", 85, "groceries", "domestic"⟩,
       ⟨"Weekend Trip", 450, "travel", "domestic"⟩,
       ⟨"Laptop Purchase", 1200, "electronics", "international"⟩] "standard" 0) ∧
    List.Chain (· ≤ ·) 0
      ((simulate_vtc
        [⟨"Grocery Store", 85, "groceries", "domestic"⟩,
         ⟨"Weekend Trip", 450, "travel", "domestic"⟩,
         ⟨"Laptop Purchase", 1200, "electronics", "international"⟩] "standard" 0).map
        (fun e => e.running_daily_total)) :=
  running_total_monotone
    [⟨"Grocery Store", 85, "groceries", "domestic"⟩,
     ⟨"Weekend Trip", 450, "travel", "domestic"⟩,
     ⟨"Laptop Purchase", 1200, "electronics", "international"⟩] "standard" 0
    (by intro t ht; fin_cases ht <;> norm_num)

/-- C7: the summary's approval rate over an evaluated batch of N
transactions with A approved verdicts equals 100 × A / N, and equals 0 when
N = 0. -/
theorem approval_rate_formula (txs : List Transaction) (profile : String) (start : ℚ) :
    (calculate_vtc_summary (simulate_vtc txs profile start)).approval_rate =
      (if txs.length = 0 then 0
       else 100 * (((simulate_vtc txs profile start).filter
              (fun t => t.status = "Approved")).length : ℚ) / (txs.length : ℚ)) := by
  rw [approval_rate_eq, simulate_vtc_length]
  rcases Nat.eq_zero_or_pos txs.length with h | h
  · simp [h]
  · rw [if_pos h, if_neg (Nat.pos_iff_ne_zero.mp h)]
    ring

/-- C8: under the `standard` profile a domestic, non-ATM, non-high-risk
transaction of exactly `max_single_transaction = 1000` is approved (with
starting daily total 0), while an otherwise identical transaction of
1000.01 is declined. -/
theorem single_transaction_boundary :
    ((simulate_vtc [⟨"Big Purchase", 1000, "shopping", "domestic"⟩] "standard" 0).map
        (fun e => e.status)) = ["Approved"] ∧
    ((simulate_vtc [⟨"Big Purchase", 1000.01, "shopping", "domestic"⟩] "standard" 0).map
        (fun e => e.status)) = ["Declined"] := by
  constructor <;>
    simp [simulate_vtc, simulate_vtc_go, vtc_step, vtc_decision, get_vtc_rules,
      VTC_RULES_standard, transaction_categories_get, TRANSACTION_CATEGORIES,
      List.find?] <;>
    norm_num
